import Mathlib

/-!
Shallow embedding of the API aggregation layer of a recommendation
front-end: the URL cache and image URL builders of src/utils/image-utils.ts,
the Google Knowledge Graph client and the Wikipedia client.  JavaScript
Map objects are modelled as association lists in insertion order, network
fetch calls as oracles passed in as arguments, thrown exceptions as Except
values, and the time source Date.now() as an explicit Int argument.
Optional string-valued fields conflate undefined with "" (both are falsy in
JavaScript and every guard in the source tests truthiness only).
-/

/-- Association list lookup, modelling Map.get (and Map.has via isSome). -/
def lookupKV {α : Type} : List (String × α) → String → Option α
  | [], _ => none
  | (k, v) :: rest, key => if k = key then some v else lookupKV rest key

/-- Map.set: update an existing key in place (keeping its position in
iteration order, as JavaScript Map does), else append at the end. -/
def setKV {α : Type} : List (String × α) → String → α → List (String × α)
  | [], key, val => [(key, val)]
  | (k, v) :: rest, key, val =>
    if k = key then (key, val) :: rest else (k, v) :: setKV rest key val

/-- Map.delete: remove the (first) entry with the given key. -/
def eraseKV {α : Type} : List (String × α) → String → List (String × α)
  | [], _ => []
  | (k, v) :: rest, key => if k = key then rest else (k, v) :: eraseKV rest key

theorem lookupKV_setKV_self {α : Type} (c : List (String × α)) (k : String) (v : α) :
    lookupKV (setKV c k v) k = some v := by
  induction c with
  | nil => simp [setKV, lookupKV]
  | cons p rest ih =>
    obtain ⟨k1, v1⟩ := p
    by_cases h : k1 = k
    · simp [setKV, h, lookupKV]
    · simp [setKV, h, lookupKV, ih]

theorem lookupKV_eq_none_of_not_mem {α : Type} (c : List (String × α)) (k : String)
    (h : k ∉ c.map Prod.fst) : lookupKV c k = none := by
  induction c with
  | nil => simp [lookupKV]
  | cons p rest ih =>
    obtain ⟨k1, v1⟩ := p
    simp only [List.map_cons, List.mem_cons] at h
    push_neg at h
    simp [lookupKV, Ne.symm h.1, ih h.2]

theorem lookupKV_eraseKV_self {α : Type} (c : List (String × α)) (k : String)
    (hnd : (c.map Prod.fst).Nodup) : lookupKV (eraseKV c k) k = none := by
  induction c with
  | nil => simp [eraseKV, lookupKV]
  | cons p rest ih =>
    obtain ⟨k1, v1⟩ := p
    simp only [List.map_cons, List.nodup_cons] at hnd
    by_cases h : k1 = k
    · subst h
      simpa [eraseKV] using lookupKV_eq_none_of_not_mem rest k1 hnd.1
    · simp [eraseKV, h, lookupKV, ih hnd.2]

theorem mem_keys_setKV {α : Type} (c : List (String × α)) (k : String) (v : α) (x : String)
    (hx : x ∈ (setKV c k v).map Prod.fst) : x ∈ c.map Prod.fst ∨ x = k := by
  induction c with
  | nil =>
    simp only [setKV, List.map_cons, List.map_nil, List.mem_singleton] at hx
    exact Or.inr hx
  | cons p rest ih =>
    obtain ⟨k1, v1⟩ := p
    by_cases h : k1 = k
    · subst h
      have hset : setKV ((k1, v1) :: rest) k1 v = (k1, v) :: rest := by simp [setKV]
      rw [hset, List.map_cons, List.mem_cons] at hx
      rcases hx with hx | hx
      · exact Or.inr hx
      · exact Or.inl (List.mem_cons_of_mem _ hx)
    · have hset : setKV ((k1, v1) :: rest) k v = (k1, v1) :: setKV rest k v := by
        simp [setKV, h]
      rw [hset, List.map_cons, List.mem_cons] at hx
      rcases hx with hx | hx
      · exact Or.inl (hx ▸ List.mem_cons_self x _)
      · rcases ih hx with hh | hh
        · exact Or.inl (List.mem_cons_of_mem _ hh)
        · exact Or.inr hh

theorem nodup_keys_setKV {α : Type} (c : List (String × α)) (k : String) (v : α)
    (hnd : (c.map Prod.fst).Nodup) : ((setKV c k v).map Prod.fst).Nodup := by
  induction c with
  | nil => simp [setKV]
  | cons p rest ih =>
    obtain ⟨k1, v1⟩ := p
    simp only [List.map_cons, List.nodup_cons] at hnd
    by_cases h : k1 = k
    · subst h
      have hset : setKV ((k1, v1) :: rest) k1 v = (k1, v) :: rest := by simp [setKV]
      rw [hset, List.map_cons, List.nodup_cons]
      exact ⟨hnd.1, hnd.2⟩
    · have hset : setKV ((k1, v1) :: rest) k v = (k1, v1) :: setKV rest k v := by
        simp [setKV, h]
      rw [hset, List.map_cons, List.nodup_cons]
      refine ⟨fun hmem => ?_, ih hnd.2⟩
      rcases mem_keys_setKV rest k v k1 hmem with hh | hh
      · exact hnd.1 hh
      · exact h hh

/-- JavaScript truthiness of a possibly absent string: undefined, null and
the empty string are all falsy. -/
def jsTruthyOpt : Option String → Bool
  | none => false
  | some s => s ≠ ""

/-- JavaScript  a || b  for string a (b used when a is falsy, i.e. ""). -/
def jsOrS (a b : String) : String :=
  if a = "" then b else a

/-- Hexadecimal digit used by percent encoding (uppercase, as produced by
the JavaScript encodeURIComponent builtin). -/
def hexDigitChar (n : Nat) : Char :=
  if n < 10 then Char.ofNat (48 + n) else Char.ofNat (55 + n)

/-- UTF-8 byte sequence of a code point, as percent encoding operates on. -/
def utf8Bytes (n : Nat) : List Nat :=
  if n < 128 then [n]
  else if n < 2048 then [192 + n / 64, 128 + n % 64]
  else if n < 65536 then [224 + n / 4096, 128 + (n / 64) % 64, 128 + n % 64]
  else [240 + n / 262144, 128 + (n / 4096) % 64, 128 + (n / 64) % 64, 128 + n % 64]

/-- A single percent-encoded byte, e.g. %2F. -/
def percentEnc (b : Nat) : List Char :=
  ['%', hexDigitChar (b / 16), hexDigitChar (b % 16)]

/-- The characters encodeURIComponent leaves unescaped:
A-Z a-z 0-9 - _ . ! ~ * ( ) and the apostrophe (code point 39). -/
def uriUnreserved (c : Char) : Bool :=
  ('a' ≤ c && c ≤ 'z') || ('A' ≤ c && c ≤ 'Z') || ('0' ≤ c && c ≤ '9') ||
    c = '-' || c = '_' || c = '.' || c = '!' || c = '~' || c = '*' ||
    c = '(' || c = ')' || c.toNat = 39

/-- Model of the JavaScript encodeURIComponent builtin. -/
def encodeURIComponent (s : String) : String :=
  String.mk (s.toList.flatMap fun c =>
    if uriUnreserved c then [c] else (utf8Bytes c.toNat).flatMap percentEnc)

theorem string_length_zero_eq_empty (s : String) (h : s.length = 0) : s = "" := by
  cases s with
  | mk data =>
    cases data with
    | nil => rfl
    | cons c cs => simp [String.length] at h

theorem string_append_ne_empty_left (s t : String) (h : s ≠ "") : s ++ t ≠ "" := by
  intro heq
  apply h
  have hlen := congrArg String.length heq
  have h0 : ("" : String).length = 0 := rfl
  simp only [String.length_append, h0] at hlen
  exact string_length_zero_eq_empty s (by omega)

theorem string_append_ne_empty_right (s t : String) (h : t ≠ "") : s ++ t ≠ "" := by
  intro heq
  apply h
  have hlen := congrArg String.length heq
  have h0 : ("" : String).length = 0 := rfl
  simp only [String.length_append, h0] at hlen
  exact string_length_zero_eq_empty t (by omega)

/-! ## src/utils/image-utils.ts -/

/-- The module-level urlCache Map of image-utils.ts (key to URL string),
in insertion order. -/
abbrev UrlCache := List (String × String)

/-- The fixed placeholder returned by all the URL builders on absent input. -/
def placeholderUrl : String := "/placeholder.svg?height=400&width=400"

/-- getProxiedImageUrl of image-utils.ts.  The cache is threaded explicitly;
the input models the  string | null | undefined  parameter. -/
def getProxiedImageUrl (originalUrl : Option String) (cache : UrlCache) :
    String × UrlCache :=
  if jsTruthyOpt originalUrl then
    let u := originalUrl.getD ""
    let cacheKey := "proxy_" ++ u
    match lookupKV cache cacheKey with
    | some v => (v, cache)
    | none =>
      let proxiedUrl := "/api/image-proxy?url=" ++ encodeURIComponent u
      (proxiedUrl, setKV cache cacheKey proxiedUrl)
  else (placeholderUrl, cache)

/-- getTMDbImageUrl of image-utils.ts (the source defaults size to "w500";
here size is always passed explicitly). -/
def getTMDbImageUrl (path : Option String) (size : String) (cache : UrlCache) :
    String × UrlCache :=
  if jsTruthyOpt path then
    let p := path.getD ""
    let cacheKey := "tmdb_" ++ p ++ "_" ++ size
    match lookupKV cache cacheKey with
    | some v => (v, cache)
    | none =>
      let tmdbUrl := "https://image.tmdb.org/t/p/" ++ size ++ p
      (tmdbUrl, setKV cache cacheKey tmdbUrl)
  else (placeholderUrl, cache)

/-- A Spotify image object; only the url field is read by the source.
Absent url conflated with "". -/
structure SpotifyImage where
  url : String
deriving DecidableEq

/-- getSpotifyImageUrl of image-utils.ts.  The parameter type  any[] | undefined
is modelled with Option for the array and for each element (elements can be
null or undefined at runtime).  Accessing .url on a null first element throws,
hence the Except result. -/
def getSpotifyImageUrl (images : Option (List (Option SpotifyImage))) (cache : UrlCache) :
    Except String (String × UrlCache) :=
  match images with
  | none => Except.ok (placeholderUrl, cache)
  | some [] => Except.ok (placeholderUrl, cache)
  | some (none :: _) =>
    Except.error "TypeError: Cannot read properties of null (reading url)"
  | some (some img :: _) =>
    if img.url = "" then Except.ok (placeholderUrl, cache)
    else
      let imageUrl := img.url
      let cacheKey := "spotify_" ++ imageUrl
      match lookupKV cache cacheKey with
      | some v => Except.ok (v, cache)
      | none => Except.ok (imageUrl, setKV cache cacheKey imageUrl)

/-- getWikipediaImageUrl of image-utils.ts. -/
def getWikipediaImageUrl (entityId : Option String) (cache : UrlCache) :
    String × UrlCache :=
  if jsTruthyOpt entityId then
    let eid := entityId.getD ""
    let cacheKey := "wiki_" ++ eid
    match lookupKV cache cacheKey with
    | some v => (v, cache)
    | none =>
      let wikimediaUrl :=
        "https://commons.wikimedia.org/wiki/Special:FilePath/" ++ eid ++ "?width=800"
      let proxiedUrl := "/api/image-proxy?url=" ++ encodeURIComponent wikimediaUrl
      (proxiedUrl, setKV cache cacheKey proxiedUrl)
  else (placeholderUrl, cache)

/-- limitCacheSize of image-utils.ts (the source defaults maxSize to 100):
when the cache holds more than maxSize entries, delete the entry whose key
the iterator yields first (the first in insertion order). -/
def limitCacheSize (maxSize : Nat) (cache : UrlCache) : UrlCache :=
  if cache.length > maxSize then
    match cache.head? with
    | some (k, _) => eraseKV cache k
    | none => cache
  else cache

/-! ## Wikipedia client (wikipedia-service) -/

/-- One entry of data.query.search in the Wikipedia search response; the
source only ever reads pageid (and title is displayed elsewhere). -/
structure WikiSearchResult where
  pageid : Nat
  title : String
deriving DecidableEq

/-- A thumbnail object of a Wikipedia page; absent source conflated with "". -/
structure WikiThumbnail where
  source : String
deriving DecidableEq

/-- The page object data.query.pages[pageId] returned by getWikipediaContent.
Absent string fields conflated with "". -/
structure WikiPage where
  title : String
  extract : String
  thumbnail : Option WikiThumbnail
  pageid : Nat
deriving DecidableEq

/-- Outcome of the fetch in searchWikipedia.  ok = false models a non-2xx
response or any thrown failure (network error, JSON parse error, missing
data.query), all of which the catch block turns into the same result.
results models data.query.search, none meaning the field is absent
(the source then falls back to [] via  data.query.search || []). -/
structure WikiSearchResponse where
  ok : Bool
  results : Option (List WikiSearchResult)
deriving DecidableEq

/-- The 24h cache TTL of wikipedia-service (milliseconds). -/
def CACHE_TTL : Int := 24 * 60 * 60 * 1000

/-- A searchCache value of wikipedia-service: { data, timestamp }. -/
structure WikiSearchCacheEntry where
  data : List WikiSearchResult
  timestamp : Int
deriving DecidableEq

/-- The searchCache Map of wikipedia-service. -/
abbrev WikiSearchCache := List (String × WikiSearchCacheEntry)

def WIKIPEDIA_API_BASE_URL : String := "https://ja.wikipedia.org/w/api.php"

/-- The cache key  search_query_limit  built by searchWikipedia. -/
def wikiSearchCacheKey (query : String) (limit : Nat) : String :=
  "search_" ++ query ++ "_" ++ toString limit

/-- The request URL built by searchWikipedia. -/
def wikiSearchUrl (query : String) (limit : Nat) : String :=
  WIKIPEDIA_API_BASE_URL ++ "?action=query&list=search&srsearch=" ++
    encodeURIComponent query ++ "&format=json&srlimit=" ++ toString limit ++ "&origin=*"

/-- The try block of searchWikipedia after a cache miss (or after evicting an
expired entry): fetch, store { data, timestamp: now } on success, return []
on failure without caching.  The Bool records that the network was consulted. -/
def searchWikipediaFetchPath (cacheKey url : String) (now : Int)
    (cache : WikiSearchCache) (fetch : String → WikiSearchResponse) :
    List WikiSearchResult × WikiSearchCache × Bool :=
  let resp := fetch url
  if resp.ok then
    let results := resp.results.getD []
    (results, setKV cache cacheKey ⟨results, now⟩, true)
  else ([], cache, true)

/-- searchWikipedia of wikipedia-service (the source defaults limit to 5).
now models Date.now(); the cache is threaded explicitly; the final Bool
records whether a network fetch was performed. -/
def searchWikipedia (query : String) (limit : Nat) (now : Int)
    (cache : WikiSearchCache) (fetch : String → WikiSearchResponse) :
    List WikiSearchResult × WikiSearchCache × Bool :=
  let cacheKey := wikiSearchCacheKey query limit
  match lookupKV cache cacheKey with
  | some entry =>
    if now - entry.timestamp < CACHE_TTL then (entry.data, cache, false)
    else
      searchWikipediaFetchPath cacheKey (wikiSearchUrl query limit) now
        (eraseKV cache cacheKey) fetch
  | none =>
    searchWikipediaFetchPath cacheKey (wikiSearchUrl query limit) now cache fetch

/-- The normalized recommendation record produced by both clients (the
apiData passthrough field, a loose diagnostic object that differs between
the two clients and is read by no claim, is omitted). -/
structure RecommendationItem where
  name : String
  reason : String
  features : List String
  imageUrl : String
  officialUrl : String
deriving DecidableEq

/-- The item mapping inside getWikipediaRecommendations: builds a
RecommendationItem from a fetched page.  imageUrl is
content.thumbnail ? content.thumbnail.source : "/placeholder.svg" —
note the source field itself is not guarded. -/
def toWikipediaRecommendationItem (query : String) (content : WikiPage) :
    RecommendationItem :=
  { name := content.title
  , reason := "Wikipediaで「" ++ query ++ "」に関連する情報として見つかりました。"
  , features :=
      [ if content.extract ≠ "" then
          String.mk (content.extract.toList.take 100) ++ "..."
        else "詳細情報はWikipediaをご覧ください。"
      , "信頼性の高い情報源"
      , "幅広いトピックをカバー" ]
  , imageUrl :=
      match content.thumbnail with
      | some t => t.source
      | none => "/placeholder.svg"
  , officialUrl := "https://ja.wikipedia.org/?curid=" ++ toString content.pageid }

/-- getWikipediaRecommendations of wikipedia-service, after its call to
searchWikipedia: searchResults is the list that call returned, and content
is the getWikipediaContent oracle (none models a null content result, i.e.
a failed or empty fetch).  The result list keeps the source shape
(Item | null)[] after the final  filter(item => item !== null). -/
def getWikipediaRecommendations (query : String) (limit : Nat)
    (searchResults : List WikiSearchResult) (content : Nat → Option WikiPage) :
    List (Option RecommendationItem) :=
  if searchResults.isEmpty then []
  else
    let topResults := searchResults.take limit
    let recommendations := topResults.map (fun r =>
      match content r.pageid with
      | none => none
      | some page => some (toWikipediaRecommendationItem query page))
    recommendations.filter (fun item => item.isSome)

/-! ## List Char matching primitives for the regular expressions of the
Knowledge Graph client -/

/-- Does the pattern occur as a prefix of the list. -/
def listStartsWith : List Char → List Char → Bool
  | [], _ => true
  | _ :: _, [] => false
  | p :: ps, c :: cs => p = c && listStartsWith ps cs

/-- Does the pattern occur as a contiguous substring of the list. -/
def listContains (pat : List Char) : List Char → Bool
  | [] => listStartsWith pat []
  | c :: cs => listStartsWith pat (c :: cs) || listContains pat cs

/-- Drop a literal prefix, returning the remainder on success. -/
def chopLit : List Char → List Char → Option (List Char)
  | [], l => some l
  | _ :: _, [] => none
  | p :: ps, c :: cs => if p = c then chopLit ps cs else none

/-- Longest leading run of ASCII digits. -/
def takeDigits : List Char → List Char
  | [] => []
  | c :: rest => if '0' ≤ c && c ≤ '9' then c :: takeDigits rest else []

/-- Longest leading run of word characters [a-zA-Z0-9_]. -/
def takeWordChars : List Char → List Char
  | [] => []
  | c :: rest =>
    if ('a' ≤ c && c ≤ 'z') || ('A' ≤ c && c ≤ 'Z') || ('0' ≤ c && c ≤ '9') || c = '_' then
      c :: takeWordChars rest
    else []

/-- Leftmost match of the regular expression  wikidata\.org\/entity\/(Q\d+),
returning the capture group. -/
def findWikidata : List Char → Option String
  | [] => none
  | c :: cs =>
    match chopLit "wikidata.org/entity/Q".toList (c :: cs) with
    | some rest =>
      let ds := takeDigits rest
      if ds = [] then findWikidata cs else some (String.mk ('Q' :: ds))
    | none => findWikidata cs

/-- Leftmost match of the regular expression  \/m\/([a-zA-Z0-9_]+),
returning the capture group. -/
def findFreebase : List Char → Option String
  | [] => none
  | c :: cs =>
    match chopLit "/m/".toList (c :: cs) with
    | some rest =>
      let ws := takeWordChars rest
      if ws = [] then findFreebase cs else some (String.mk ws)
    | none => findFreebase cs

/-- extractWikidataId of the Knowledge Graph client: falsy guard, then the
Wikidata pattern, then the Freebase pattern as fallback. -/
def extractWikidataId (entityId : String) : Option String :=
  if entityId = "" then none
  else
    match findWikidata entityId.toList with
    | some q => some q
    | none => findFreebase entityId.toList

/-! ## Knowledge Graph client -/

/-- The image object of a KnowledgeGraphEntity.  The TypeScript interface
declares the fields as strings; at runtime they may be absent, which the
source only ever observes through truthiness, so absence is conflated
with "". -/
structure KGImage where
  contentUrl : String
  url : String
  license : String
deriving DecidableEq

/-- The detailedDescription object of a KnowledgeGraphEntity. -/
structure KGDetailedDescription where
  articleBody : String
  url : String
  license : String
deriving DecidableEq

/-- KnowledgeGraphEntity.  The JSON keys @id and @type are written atId and
atType.  atType is kept as Option (List String): the interface declares it
required, but determineCategory guards a missing value with  || []  while
convertToRecommendationItem does not, and that difference is observable. -/
structure KGEntity where
  atId : String
  name : String
  atType : Option (List String)
  description : String
  detailedDescription : Option KGDetailedDescription
  image : Option KGImage
  url : String
deriving DecidableEq

/-- entity.image?.contentUrl with undefined conflated to "". -/
def imageContentUrl (e : KGEntity) : String :=
  match e.image with
  | some i => i.contentUrl
  | none => ""

/-- entity.image?.url with undefined conflated to "". -/
def imageUrlField (e : KGEntity) : String :=
  match e.image with
  | some i => i.url
  | none => ""

/-- entity.detailedDescription?.articleBody with undefined conflated to "". -/
def detailedArticleBody (e : KGEntity) : String :=
  match e.detailedDescription with
  | some d => d.articleBody
  | none => ""

/-- entity.detailedDescription?.url with undefined conflated to "". -/
def detailedDescUrl (e : KGEntity) : String :=
  match e.detailedDescription with
  | some d => d.url
  | none => ""

/-- getKnowledgeGraphImageUrl of the Knowledge Graph client.  content is the
getWikipediaContent oracle (the source passes the extracted id to it and
reads  wikipediaContent?.thumbnail?.source).  The final Bool records whether
getWikipediaContent was called. -/
def getKnowledgeGraphImageUrl (e : KGEntity) (content : String → Option WikiPage)
    (cache : UrlCache) : String × UrlCache × Bool :=
  if imageContentUrl e ≠ "" then
    let r := getProxiedImageUrl (some (imageContentUrl e)) cache
    (r.1, r.2, false)
  else if imageUrlField e ≠ "" then
    let r := getProxiedImageUrl (some (imageUrlField e)) cache
    (r.1, r.2, false)
  else
    match extractWikidataId e.atId with
    | some wikidataId =>
      match content wikidataId with
      | some page =>
        match page.thumbnail with
        | some th =>
          if th.source ≠ "" then
            let r := getProxiedImageUrl (some th.source) cache
            (r.1, r.2, true)
          else (placeholderUrl, cache, true)
        | none => (placeholderUrl, cache, true)
      | none => (placeholderUrl, cache, true)
    | none => (placeholderUrl, cache, false)

/-- Strip a leading  [a-z]+:  namespace from a type tag
(type.replace applied to the anchored pattern). -/
def stripNs (s : String) : String :=
  let l := s.toList
  let low := l.takeWhile (fun c => 'a' ≤ c && c ≤ 'z')
  let rest := l.drop low.length
  if low ≠ [] then
    match rest with
    | ':' :: tail2 => String.mk tail2
    | _ => s
  else s

/-- The features list built by convertToRecommendationItem: up to three
namespace-stripped type tags, plus 公式サイトあり when a url exists, with
falsy (empty) strings removed by filter(Boolean). -/
def recFeatures (types : List String) (url : String) : List String :=
  ((types.take 3).map stripNs ++ [if url ≠ "" then "公式サイトあり" else ""]).filter
    (fun s => s ≠ "")

/-- convertToRecommendationItem of the Knowledge Graph client.  The image is
resolved first (before the object literal is evaluated); building the
features list reads entity["@type"].slice with no guard, so a missing
@type throws, modelled by the Except error. -/
def convertToRecommendationItem (e : KGEntity) (content : String → Option WikiPage)
    (cache : UrlCache) : Except String RecommendationItem × UrlCache :=
  let r := getKnowledgeGraphImageUrl e content cache
  match e.atType with
  | none =>
    (Except.error "TypeError: Cannot read properties of undefined (reading slice)", r.2.1)
  | some types =>
    (Except.ok
      { name := e.name
      , reason := jsOrS (detailedArticleBody e) (jsOrS e.description (e.name ++ "に関する情報です。"))
      , features := recFeatures types e.url
      , imageUrl := r.1
      , officialUrl := jsOrS e.url (jsOrS (detailedDescUrl e) "#") }
    , r.2.1)

/-- Lower-case a character list (the keyword matching of determineCategory
is over ASCII keywords, where JavaScript toLowerCase and Char.toLower agree). -/
def lowerList (l : List Char) : List Char := l.map Char.toLower

/-- types.join(" ") over character lists. -/
def joinSep (sep : List Char) : List (List Char) → List Char
  | [] => []
  | [x] => x
  | x :: y :: rest => x ++ sep ++ joinSep sep (y :: rest)

/-- Substring membership, s.includes(pat). -/
def containsSub (s pat : List Char) : Bool := listContains pat s

/-- The keyword classification of determineCategory, applied to the type
tag list (after the  entity["@type"] || []  default). -/
def kgCategoryOfTypes (types : List String) : String :=
  let typeStr := lowerList (joinSep [' '] (types.map String.toList))
  if containsSub typeStr "musician".toList || containsSub typeStr "artist".toList ||
      containsSub typeStr "musicgroup".toList || containsSub typeStr "band".toList ||
      containsSub typeStr "music".toList then "artists"
  else if containsSub typeStr "actor".toList || containsSub typeStr "actress".toList ||
      containsSub typeStr "celebrity".toList || containsSub typeStr "person".toList ||
      containsSub typeStr "director".toList || containsSub typeStr "athlete".toList then
    "celebrities"
  else if containsSub typeStr "movie".toList || containsSub typeStr "tvshow".toList ||
      containsSub typeStr "tvseries".toList || containsSub typeStr "book".toList ||
      containsSub typeStr "game".toList || containsSub typeStr "videogame".toList ||
      containsSub typeStr "anime".toList then "media"
  else if containsSub typeStr "brand".toList || containsSub typeStr "clothing".toList ||
      containsSub typeStr "fashion".toList || containsSub typeStr "organization".toList ||
      containsSub typeStr "company".toList || containsSub typeStr "corporation".toList then
    "fashion"
  else "celebrities"

/-- determineCategory of the Knowledge Graph client:
types = entity["@type"] || [], then the ordered keyword groups. -/
def determineCategory (e : KGEntity) : String :=
  kgCategoryOfTypes (e.atType.getD [])

/-- getApiKey of the Knowledge Graph client: env models
process.env.GOOGLE_KNOWLEDGE_GRAPH_API_KEY (none = variable absent; the
source tests truthiness, so "" also fails). -/
def getApiKey (env : Option String) : Except String String :=
  match env with
  | none => Except.error "Google Knowledge Graph API key is not set in environment variables"
  | some k =>
    if k = "" then
      Except.error "Google Knowledge Graph API key is not set in environment variables"
    else Except.ok k

/-- One element of itemListElement in the Knowledge Graph response; result
may be a falsy value, modelled none. -/
structure KGItemListElement where
  result : Option KGEntity
deriving DecidableEq

/-- Outcome of the fetch in searchEntities.  ok = false models a non-2xx
response or a thrown network/JSON failure; itemListElement = none models a
response body without that field (reading .map on it then throws). -/
structure KGFetchResponse where
  ok : Bool
  itemListElement : Option (List KGItemListElement)
deriving DecidableEq

/-- The searchCache Map of the Knowledge Graph client (no TTL). -/
abbrev KGSearchCache := List (String × List KGEntity)

/-- The cache key  query_typesStr_limit  built by searchEntities. -/
def kgCacheKey (query : String) (types : List String) (limit : Nat) : String :=
  query ++ "_" ++ String.intercalate "," types ++ "_" ++ toString limit

/-- The request URL built by searchEntities. -/
def kgRequestUrl (apiKey query : String) (types : List String) (limit : Nat) : String :=
  "https://kgsearch.googleapis.com/v1/entities:search?query=" ++
      encodeURIComponent query ++ "&key=" ++ apiKey ++ "&limit=" ++ toString limit ++
      "&indent=true" ++
    (if types.length > 0 then
        "&types=" ++ String.intercalate "," (types.map encodeURIComponent)
      else "") ++
    "&languages=ja,en"

/-- The try block of searchEntities: get the key (throws if absent), build
the URL, fetch, throw on a non-2xx response, extract and falsy-filter the
entities, cache them.  The Bool records whether the network was consulted. -/
def searchEntitiesBody (env : Option String) (query : String) (types : List String)
    (limit : Nat) (cacheKey : String) (cache : KGSearchCache)
    (fetch : String → KGFetchResponse) :
    Except String (List KGEntity × KGSearchCache) × Bool :=
  match getApiKey env with
  | Except.error msg => (Except.error msg, false)
  | Except.ok apiKey =>
    let url := kgRequestUrl apiKey query types limit
    let resp := fetch url
    if resp.ok then
      match resp.itemListElement with
      | none =>
        (Except.error "TypeError: Cannot read properties of undefined (reading map)", true)
      | some items =>
        let entities := items.filterMap (fun item => item.result)
        (Except.ok (entities, setKV cache cacheKey entities), true)
    else (Except.error "Failed to search entities", true)

/-- searchEntities of the Knowledge Graph client (the source defaults types
to [] and limit to 10).  The catch block turns any thrown error into a plain
[] return with the cache untouched. -/
def searchEntities (env : Option String) (query : String) (types : List String)
    (limit : Nat) (cache : KGSearchCache) (fetch : String → KGFetchResponse) :
    List KGEntity × KGSearchCache × Bool :=
  let cacheKey := kgCacheKey query types limit
  match lookupKV cache cacheKey with
  | some cached => (cached, cache, false)
  | none =>
    match searchEntitiesBody env query types limit cacheKey cache fetch with
    | (Except.ok (entities, cache2), nw) => (entities, cache2, nw)
    | (Except.error _, nw) => ([], cache, nw)

/-! ## Supporting lemmas -/

/-- Invariant of the urlCache: every stored value is a non-empty URL
(every write performed by the builders stores a non-empty string). -/
def nonEmptyVals (c : UrlCache) : Prop := ∀ p ∈ c, p.2 ≠ ""

theorem lookupKV_val_mem {α : Type} (c : List (String × α)) (key : String) (v : α)
    (h : lookupKV c key = some v) : ∃ k, (k, v) ∈ c := by
  induction c with
  | nil => simp [lookupKV] at h
  | cons p rest ih =>
    obtain ⟨k1, v1⟩ := p
    by_cases hk : k1 = key
    · subst hk
      simp only [lookupKV, if_true, eq_self_iff_true, Option.some.injEq] at h
      refine ⟨k1, ?_⟩
      rw [← h]
      exact List.mem_cons_self _ _
    · simp only [lookupKV, hk, if_false] at h
      obtain ⟨k2, hm⟩ := ih h
      exact ⟨k2, List.mem_cons_of_mem _ hm⟩

theorem placeholderUrl_ne_empty : placeholderUrl ≠ "" := by decide

theorem getProxiedImageUrl_ne_empty (u : Option String) (cache : UrlCache)
    (h : nonEmptyVals cache) : (getProxiedImageUrl u cache).1 ≠ "" := by
  unfold getProxiedImageUrl
  by_cases ht : jsTruthyOpt u = true
  · simp only [ht, if_true]
    cases hl : lookupKV cache ("proxy_" ++ u.getD "") with
    | some v =>
      simp only [hl]
      obtain ⟨k, hm⟩ := lookupKV_val_mem _ _ _ hl
      exact h (k, v) hm
    | none =>
      simp only [hl]
      exact string_append_ne_empty_left _ _ (by decide)
  · simp only [ht, if_false]
    exact placeholderUrl_ne_empty

theorem getTMDbImageUrl_ne_empty (p : Option String) (size : String) (cache : UrlCache)
    (h : nonEmptyVals cache) : (getTMDbImageUrl p size cache).1 ≠ "" := by
  unfold getTMDbImageUrl
  by_cases ht : jsTruthyOpt p = true
  · simp only [ht, if_true]
    cases hl : lookupKV cache ("tmdb_" ++ p.getD "" ++ "_" ++ size) with
    | some v =>
      simp only [hl]
      obtain ⟨k, hm⟩ := lookupKV_val_mem _ _ _ hl
      exact h (k, v) hm
    | none =>
      simp only [hl]
      exact string_append_ne_empty_left _ _
        (string_append_ne_empty_left _ _ (by decide))
  · simp only [ht, if_false]
    exact placeholderUrl_ne_empty

theorem getWikipediaImageUrl_ne_empty (i : Option String) (cache : UrlCache)
    (h : nonEmptyVals cache) : (getWikipediaImageUrl i cache).1 ≠ "" := by
  unfold getWikipediaImageUrl
  by_cases ht : jsTruthyOpt i = true
  · simp only [ht, if_true]
    cases hl : lookupKV cache ("wiki_" ++ i.getD "") with
    | some v =>
      simp only [hl]
      obtain ⟨k, hm⟩ := lookupKV_val_mem _ _ _ hl
      exact h (k, v) hm
    | none =>
      simp only [hl]
      exact string_append_ne_empty_left _ _ (by decide)
  · simp only [ht, if_false]
    exact placeholderUrl_ne_empty

/-- A Spotify images argument whose first element, if any, is not null. -/
def spotifyHeadOk : Option (List (Option SpotifyImage)) → Bool
  | some (none :: _) => false
  | _ => true

theorem getSpotifyImageUrl_ok_ne_empty (images : Option (List (Option SpotifyImage)))
    (cache : UrlCache) (h : nonEmptyVals cache) (hh : spotifyHeadOk images = true) :
    ∃ r cache2, getSpotifyImageUrl images cache = Except.ok (r, cache2) ∧ r ≠ "" := by
  match images with
  | none => exact ⟨placeholderUrl, cache, rfl, placeholderUrl_ne_empty⟩
  | some [] => exact ⟨placeholderUrl, cache, rfl, placeholderUrl_ne_empty⟩
  | some (none :: rest) => simp [spotifyHeadOk] at hh
  | some (some img :: rest) =>
    by_cases hu : img.url = ""
    · exact ⟨placeholderUrl, cache, by simp [getSpotifyImageUrl, hu], placeholderUrl_ne_empty⟩
    · cases hl : lookupKV cache ("spotify_" ++ img.url) with
      | some v =>
        refine ⟨v, cache, by simp [getSpotifyImageUrl, hu, hl], ?_⟩
        obtain ⟨k, hm⟩ := lookupKV_val_mem _ _ _ hl
        exact h (k, v) hm
      | none =>
        exact ⟨img.url, setKV cache ("spotify_" ++ img.url) img.url,
          by simp [getSpotifyImageUrl, hu, hl], hu⟩

/-! ## Claims C1, C4, C2, C7, C10 -/

/-- A three-entry urlCache, in insertion order. -/
def ex3Cache : UrlCache :=
  [("proxy_a", "/api/image-proxy?url=a"), ("proxy_b", "/api/image-proxy?url=b"),
   ("proxy_c", "/api/image-proxy?url=c")]

/-- C1 counterexample: limitCacheSize(1) on a cache holding exactly 3
entries does NOT leave exactly 1 entry — a single call deletes exactly one
entry, so 2 remain. -/
theorem limitCacheSize_c1_counterexample :
    ¬ ((limitCacheSize 1 ex3Cache).length = 1) := by decide

/-- C1 (amended): limitCacheSize(1) on a 3-entry cache leaves exactly 2
entries, and the removed entry is the first one inserted: whenever the
cache exceeds maxSize, a single call deletes exactly one entry — the first
in iteration order — leaving the tail of the cache. -/
theorem limitCacheSize_trim_c1_amended (maxSize : Nat) (cache : UrlCache)
    (h : cache.length > maxSize) :
    limitCacheSize maxSize cache = cache.tail ∧
    (limitCacheSize maxSize cache).length = cache.length - 1 := by
  cases cache with
  | nil => simp at h
  | cons p rest =>
    obtain ⟨k, v⟩ := p
    have h2 : maxSize < rest.length + 1 := by simpa using h
    have hlim : limitCacheSize maxSize ((k, v) :: rest) = rest := by
      simp [limitCacheSize, eraseKV, h2]
    simp [hlim]

/-- C1 witness: the amended statement evaluated on the 3-entry cache with
maxSize 1. -/
theorem limitCacheSize_c1_witness :
    limitCacheSize 1 ex3Cache = ex3Cache.tail ∧
    (limitCacheSize 1 ex3Cache).length = ex3Cache.length - 1 :=
  limitCacheSize_trim_c1_amended 1 ex3Cache (by decide)

/-- C4 counterexample: getSpotifyImageUrl on a non-empty images array whose
first element is null throws (reading .url of null) instead of returning a
URL string — the four builders are not all total. -/
theorem urlBuilders_c4_counterexample :
    getSpotifyImageUrl (some [none]) [] =
      Except.error "TypeError: Cannot read properties of null (reading url)" := rfl

/-- C4 (amended): getProxiedImageUrl, getTMDbImageUrl and getWikipediaImageUrl
are total and always return a non-empty URL string (given that every cached
value is non-empty); getSpotifyImageUrl does so for every input except a
non-empty array whose first element is null or undefined, where it throws a
TypeError. -/
theorem urlBuilders_c4_amended :
    (∀ (u : Option String) (cache : UrlCache), nonEmptyVals cache →
      (getProxiedImageUrl u cache).1 ≠ "") ∧
    (∀ (p : Option String) (size : String) (cache : UrlCache), nonEmptyVals cache →
      (getTMDbImageUrl p size cache).1 ≠ "") ∧
    (∀ (i : Option String) (cache : UrlCache), nonEmptyVals cache →
      (getWikipediaImageUrl i cache).1 ≠ "") ∧
    (∀ (images : Option (List (Option SpotifyImage))) (cache : UrlCache),
      nonEmptyVals cache → spotifyHeadOk images = true →
      ∃ r cache2, getSpotifyImageUrl images cache = Except.ok (r, cache2) ∧ r ≠ "") :=
  ⟨getProxiedImageUrl_ne_empty, getTMDbImageUrl_ne_empty, getWikipediaImageUrl_ne_empty,
   getSpotifyImageUrl_ok_ne_empty⟩

/-- C4 witness: the amended statement evaluated on concrete inputs with the
empty cache. -/
theorem urlBuilders_c4_witness :
    (getProxiedImageUrl (some "http://a.example/x.png") []).1 ≠ "" ∧
    (getTMDbImageUrl (some "/poster.jpg") "w500" []).1 ≠ "" ∧
    (getWikipediaImageUrl (some "Q42") []).1 ≠ "" ∧
    (∃ r cache2,
      getSpotifyImageUrl (some [some ⟨"http://s.example/i.jpg"⟩]) [] =
        Except.ok (r, cache2) ∧ r ≠ "") :=
  ⟨urlBuilders_c4_amended.1 (some "http://a.example/x.png") [] (by simp [nonEmptyVals]),
   urlBuilders_c4_amended.2.1 (some "/poster.jpg") "w500" [] (by simp [nonEmptyVals]),
   urlBuilders_c4_amended.2.2.1 (some "Q42") [] (by simp [nonEmptyVals]),
   urlBuilders_c4_amended.2.2.2 (some [some ⟨"http://s.example/i.jpg"⟩]) []
     (by simp [nonEmptyVals]) (by decide)⟩

/-- A Knowledge Graph fetch oracle that would succeed with one entity. -/
def exFetchKG : String → KGFetchResponse :=
  fun _ =>
    ⟨true, some [⟨some ⟨"kg:/g/1", "A", some ["Person"], "", none, none, ""⟩⟩]⟩

/-- C2 counterexample: with no API key in the environment (and an empty
cache), searchEntities returns the ordinary value ([], unchanged cache,
no network call) — the configuration error does NOT propagate to the
caller, even with a network stub that would succeed. -/
theorem searchEntities_c2_counterexample :
    searchEntities none "初音ミク" [] 10 [] exFetchKG = ([], [], false) := rfl

/-- C2 (amended): if the API key is absent (or empty, the other falsy value)
and the cache has no entry for the key, the configuration error is raised by
getApiKey before any network call (the try-block body fails with the network
flag still false), but searchEntities catches it: the caller receives []
and the cache is unchanged. -/
theorem searchEntities_missing_key_c2_amended (env : Option String) (query : String)
    (types : List String) (limit : Nat) (cache : KGSearchCache)
    (fetch : String → KGFetchResponse)
    (henv : env = none ∨ env = some "")
    (hmiss : lookupKV cache (kgCacheKey query types limit) = none) :
    (∃ msg, searchEntitiesBody env query types limit (kgCacheKey query types limit)
        cache fetch = (Except.error msg, false)) ∧
    searchEntities env query types limit cache fetch = ([], cache, false) := by
  have hbody : searchEntitiesBody env query types limit (kgCacheKey query types limit)
      cache fetch =
      (Except.error "Google Knowledge Graph API key is not set in environment variables",
       false) := by
    rcases henv with h | h <;> subst h <;> simp [searchEntitiesBody, getApiKey]
  refine ⟨⟨_, hbody⟩, ?_⟩
  simp [searchEntities, hmiss, hbody]

/-- C2 witness: the amended statement evaluated with an absent key, an empty
cache and a network stub that would succeed. -/
theorem searchEntities_c2_witness :
    (∃ msg, searchEntitiesBody none "初音ミク" [] 10 (kgCacheKey "初音ミク" [] 10)
        [] exFetchKG = (Except.error msg, false)) ∧
    searchEntities none "初音ミク" [] 10 [] exFetchKG = ([], [], false) :=
  searchEntities_missing_key_c2_amended none "初音ミク" [] 10 [] exFetchKG
    (Or.inl rfl) rfl

/-- C7 (confirmed): searchEntities is atomic on failure — on a cache miss,
if the response is non-2xx (or the body misses itemListElement, so that a
TypeError is thrown), the result is [] and the cache is unchanged; on
success the falsy-filtered entity list is stored under the key and
returned.  (The thrown missing-key error, also leaving the cache unchanged,
is covered by the C2 theorem.) -/
theorem searchEntities_atomic_c7 (k query : String) (types : List String) (limit : Nat)
    (cache : KGSearchCache) (fetch : String → KGFetchResponse)
    (hmiss : lookupKV cache (kgCacheKey query types limit) = none)
    (hk : k ≠ "") :
    ((fetch (kgRequestUrl k query types limit)).ok = false →
      searchEntities (some k) query types limit cache fetch = ([], cache, true)) ∧
    ((fetch (kgRequestUrl k query types limit)).itemListElement = none →
      searchEntities (some k) query types limit cache fetch = ([], cache, true)) ∧
    (∀ items, (fetch (kgRequestUrl k query types limit)).ok = true →
      (fetch (kgRequestUrl k query types limit)).itemListElement = some items →
      searchEntities (some k) query types limit cache fetch =
        (items.filterMap (fun item => item.result),
         setKV cache (kgCacheKey query types limit)
           (items.filterMap (fun item => item.result)),
         true)) := by
  refine ⟨?_, ?_, ?_⟩
  · intro hok
    simp [searchEntities, hmiss, searchEntitiesBody, getApiKey, hk, hok]
  · intro hitems
    by_cases hok : (fetch (kgRequestUrl k query types limit)).ok = true
    · simp [searchEntities, hmiss, searchEntitiesBody, getApiKey, hk, hok, hitems]
    · simp only [Bool.not_eq_true] at hok
      simp [searchEntities, hmiss, searchEntitiesBody, getApiKey, hk, hok]
  · intro items hok hitems
    simp [searchEntities, hmiss, searchEntitiesBody, getApiKey, hk, hok, hitems]

/-- C7 witness: a failing fetch on an empty cache returns [] and leaves the
cache empty. -/
theorem searchEntities_atomic_c7_witness :
    searchEntities (some "KEY") "q" [] 10 [] (fun _ => ⟨false, none⟩) = ([], [], true) :=
  (searchEntities_atomic_c7 "KEY" "q" [] 10 [] (fun _ => ⟨false, none⟩) rfl
    (by decide)).1 rfl

/-- kgCategoryOfTypes on the empty tag list falls through every keyword
group to the default. -/
theorem kgCategoryOfTypes_nil : kgCategoryOfTypes [] = "celebrities" := by decide

/-- C10 (confirmed): convertToRecommendationItem is not total over entities
with a missing @type: building the features list reads entity["@type"].slice
with no guard and throws, while determineCategory defaults the missing list
with  || []  and returns "celebrities". -/
theorem convertMissingType_c10 (e : KGEntity) (content : String → Option WikiPage)
    (cache : UrlCache) (h : e.atType = none) :
    (∃ msg, (convertToRecommendationItem e content cache).1 = Except.error msg) ∧
    determineCategory e = "celebrities" := by
  constructor
  · refine ⟨"TypeError: Cannot read properties of undefined (reading slice)", ?_⟩
    simp [convertToRecommendationItem, h]
  · rw [determineCategory, h]
    exact kgCategoryOfTypes_nil

/-- C10 witness: a concrete entity with all optional fields absent and no
@type. -/
theorem convertMissingType_c10_witness :
    (∃ msg, (convertToRecommendationItem ⟨"", "X", none, "", none, none, ""⟩
        (fun _ => none) []).1 = Except.error msg) ∧
    determineCategory ⟨"", "X", none, "", none, none, ""⟩ = "celebrities" :=
  convertMissingType_c10 ⟨"", "X", none, "", none, none, ""⟩ (fun _ => none) [] rfl

/-! ## Claim C6 -/

theorem listStartsWith_self_append (pat t : List Char) :
    listStartsWith pat (pat ++ t) = true := by
  induction pat with
  | nil => simp [listStartsWith]
  | cons p ps ih => simp [listStartsWith, ih]

theorem listContains_self_append (pat t : List Char) :
    listContains pat (pat ++ t) = true := by
  cases hpt : pat ++ t with
  | nil =>
    have hp : pat = [] := by
      cases pat with
      | nil => rfl
      | cons c cs => simp at hpt
    subst hp
    simp [listContains, listStartsWith]
  | cons c cs =>
    rw [listContains, ← hpt, listStartsWith_self_append]
    simp

theorem listContains_of_infix (pat l : List Char) (h : pat <:+: l) :
    listContains pat l = true := by
  obtain ⟨s, t, hst⟩ := h
  induction s generalizing l with
  | nil =>
    simp only [List.nil_append] at hst
    rw [← hst]
    exact listContains_self_append pat t
  | cons a s1 ih =>
    have hl : l = a :: (s1 ++ pat ++ t) := by rw [← hst]; simp
    subst hl
    rw [listContains, ih _ rfl]
    simp

theorem infix_joinSep (sep : List Char) (xs : List (List Char)) (x : List Char)
    (hx : x ∈ xs) : x <:+: joinSep sep xs := by
  induction xs with
  | nil => cases hx
  | cons y ys ih =>
    cases ys with
    | nil =>
      have hxy : x = y := by simpa using hx
      subst hxy
      exact List.infix_refl x
    | cons z zs =>
      rcases List.mem_cons.mp hx with h | h
      · subst h
        exact ⟨[], sep ++ joinSep sep (z :: zs), by simp [joinSep]⟩
      · obtain ⟨s, t, hst⟩ := ih h
        exact ⟨y ++ sep ++ s, t, by simp [joinSep, ← hst]⟩

theorem infix_map_toLower {a b : List Char} (h : a <:+: b) :
    lowerList a <:+: lowerList b := by
  obtain ⟨s, t, hst⟩ := h
  exact ⟨s.map Char.toLower, t.map Char.toLower, by rw [← hst]; simp [lowerList]⟩

theorem kgCategoryOfTypes_artists_of_musicgroup (types : List String)
    (h : "MusicGroup" ∈ types) : kgCategoryOfTypes types = "artists" := by
  have h1 : "MusicGroup".toList ∈ types.map String.toList :=
    List.mem_map_of_mem _ h
  have h2 : "MusicGroup".toList <:+: joinSep [' '] (types.map String.toList) :=
    infix_joinSep _ _ _ h1
  have h3 := infix_map_toLower h2
  have h4 : lowerList "MusicGroup".toList = "musicgroup".toList := by decide
  rw [h4] at h3
  have h5 : containsSub (lowerList (joinSep [' '] (types.map String.toList)))
      "musicgroup".toList = true := listContains_of_infix _ _ h3
  have h6 : containsSub (lowerList (joinSep [' '] (types.map String.toList)))
      ['m', 'u', 's', 'i', 'c', 'g', 'r', 'o', 'u', 'p'] = true := h5
  simp [kgCategoryOfTypes, h6]

/-- C6 (confirmed): determineCategory is deterministic (a pure function of
the entity) and total; empty or absent type tags fall through every keyword
group to the default "celebrities"; tags containing "MusicGroup" match the
music group, which is checked first, so an entity tagged both "MusicGroup"
and "Actor" is classified "artists". -/
theorem determineCategory_c6 :
    (∀ e : KGEntity, e.atType = none ∨ e.atType = some [] →
      determineCategory e = "celebrities") ∧
    (∀ (e : KGEntity) (types : List String), e.atType = some types →
      "MusicGroup" ∈ types → "Actor" ∈ types → determineCategory e = "artists") := by
  constructor
  · intro e h
    rcases h with h | h <;> rw [determineCategory, h] <;> exact kgCategoryOfTypes_nil
  · intro e types ht hmg _
    rw [determineCategory, ht]
    exact kgCategoryOfTypes_artists_of_musicgroup types hmg

/-- C6 witness: a typeless entity and an entity tagged both MusicGroup and
Actor. -/
theorem determineCategory_c6_witness :
    determineCategory ⟨"id", "X", some [], "", none, none, ""⟩ = "celebrities" ∧
    determineCategory ⟨"id", "Y", some ["MusicGroup", "Actor"], "", none, none, ""⟩ =
      "artists" :=
  ⟨determineCategory_c6.1 _ (Or.inr rfl),
   determineCategory_c6.2 _ ["MusicGroup", "Actor"] rfl (by decide) (by decide)⟩

/-! ## Claim C3 -/

/-- An entity whose @id carries only a Freebase-style id, with no image
fields. -/
def c3Entity : KGEntity :=
  ⟨"http://g.co/kg/m/0dgw9r", "Some Person", some ["Person"], "", none, none, ""⟩

/-- A getWikipediaContent oracle returning a page with a thumbnail. -/
def c3Oracle : String → Option WikiPage :=
  fun _ => some ⟨"人物", "", some ⟨"http://upload.example/px.jpg"⟩, 3⟩

/-- C3 counterexample: for an entity whose @id contains a Freebase id but no
Wikidata id and whose image fields are absent, extractWikidataId returns
the Freebase capture, getKnowledgeGraphImageUrl DOES call
getWikipediaContent (flag true) and the result is the proxied thumbnail,
not the fixed placeholder. -/
theorem kgImageLookup_c3_counterexample :
    extractWikidataId "http://g.co/kg/m/0dgw9r" = some "0dgw9r" ∧
    (getKnowledgeGraphImageUrl c3Entity c3Oracle []).2.2 = true ∧
    (getKnowledgeGraphImageUrl c3Entity c3Oracle []).1 ≠ placeholderUrl := by
  refine ⟨by decide, by decide, by decide⟩

/-- C3 (amended): when both image fields are falsy, the Wikipedia content
lookup is performed exactly when extractWikidataId returns an id — which is
the Wikidata capture Q\d+ when present, and otherwise the Freebase capture
/m/<alnum_>, which is then equally used for the lookup; the thumbnail of
the fetched content, when non-empty, is proxied, and the fixed placeholder
is returned only when no id is extracted or the content has no usable
thumbnail. -/
theorem kgImageLookup_c3_amended (e : KGEntity) (content : String → Option WikiPage)
    (cache : UrlCache) (h1 : imageContentUrl e = "") (h2 : imageUrlField e = "") :
    ((getKnowledgeGraphImageUrl e content cache).2.2 =
      (extractWikidataId e.atId).isSome) ∧
    (extractWikidataId e.atId = none →
      getKnowledgeGraphImageUrl e content cache = (placeholderUrl, cache, false)) ∧
    (∀ wid page, extractWikidataId e.atId = some wid → content wid = some page →
      page.thumbnail = none →
      getKnowledgeGraphImageUrl e content cache = (placeholderUrl, cache, true)) ∧
    (∀ wid page th, extractWikidataId e.atId = some wid → content wid = some page →
      page.thumbnail = some th → th.source ≠ "" →
      getKnowledgeGraphImageUrl e content cache =
        ((getProxiedImageUrl (some th.source) cache).1,
         (getProxiedImageUrl (some th.source) cache).2, true)) := by
  refine ⟨?_, ?_, ?_, ?_⟩
  · cases hw : extractWikidataId e.atId with
    | none => simp [getKnowledgeGraphImageUrl, h1, h2, hw]
    | some wid =>
      cases hc : content wid with
      | none => simp [getKnowledgeGraphImageUrl, h1, h2, hw, hc]
      | some page =>
        cases hth : page.thumbnail with
        | none => simp [getKnowledgeGraphImageUrl, h1, h2, hw, hc, hth]
        | some th =>
          by_cases hs : th.source = "" <;>
            simp [getKnowledgeGraphImageUrl, h1, h2, hw, hc, hth, hs]
  · intro hw
    simp [getKnowledgeGraphImageUrl, h1, h2, hw]
  · intro wid page hw hc hth
    simp [getKnowledgeGraphImageUrl, h1, h2, hw, hc, hth]
  · intro wid page th hw hc hth hs
    simp [getKnowledgeGraphImageUrl, h1, h2, hw, hc, hth, hs]

/-- C3 witness: the amended statement evaluated on a Wikidata-id entity
whose content lookup yields a page without thumbnail (placeholder, but the
lookup did happen). -/
theorem kgImageLookup_c3_witness :
    getKnowledgeGraphImageUrl
        ⟨"https://www.wikidata.org/entity/Q42", "DA", some ["Person"], "", none, none, ""⟩
        (fun _ => some ⟨"DA", "author", none, 8⟩) [] =
      (placeholderUrl, [], true) :=
  (kgImageLookup_c3_amended
      ⟨"https://www.wikidata.org/entity/Q42", "DA", some ["Person"], "", none, none, ""⟩
      (fun _ => some ⟨"DA", "author", none, 8⟩) [] rfl rfl).2.2.1 "Q42"
    ⟨"DA", "author", none, 8⟩ (by decide) rfl rfl

/-! ## Claim C5 -/

theorem mem_recFeatures_ne_empty (types : List String) (url : String) (f : String)
    (hf : f ∈ recFeatures types url) : f ≠ "" := by
  simp only [recFeatures, List.mem_filter] at hf
  simpa using hf.2

theorem getKnowledgeGraphImageUrl_ne_empty (e : KGEntity)
    (content : String → Option WikiPage) (cache : UrlCache) (h : nonEmptyVals cache) :
    (getKnowledgeGraphImageUrl e content cache).1 ≠ "" := by
  by_cases h1 : imageContentUrl e = ""
  · by_cases h2 : imageUrlField e = ""
    · cases hw : extractWikidataId e.atId with
      | none =>
        simpa [getKnowledgeGraphImageUrl, h1, h2, hw] using placeholderUrl_ne_empty
      | some wid =>
        cases hc : content wid with
        | none =>
          simpa [getKnowledgeGraphImageUrl, h1, h2, hw, hc] using placeholderUrl_ne_empty
        | some page =>
          cases hth : page.thumbnail with
          | none =>
            simpa [getKnowledgeGraphImageUrl, h1, h2, hw, hc, hth] using
              placeholderUrl_ne_empty
          | some th =>
            by_cases hs : th.source = ""
            · simpa [getKnowledgeGraphImageUrl, h1, h2, hw, hc, hth, hs] using
                placeholderUrl_ne_empty
            · simpa [getKnowledgeGraphImageUrl, h1, h2, hw, hc, hth, hs] using
                getProxiedImageUrl_ne_empty (some th.source) cache h
    · simpa [getKnowledgeGraphImageUrl, h1, h2] using
        getProxiedImageUrl_ne_empty (some (imageUrlField e)) cache h
  · simpa [getKnowledgeGraphImageUrl, h1] using
      getProxiedImageUrl_ne_empty (some (imageContentUrl e)) cache h

/-- A page whose thumbnail object is present but whose source field is
absent (conflated with ""), as delivered by a loosely validated response. -/
def c5BadPage : WikiPage := ⟨"東京タワー", "概要", some ⟨""⟩, 7⟩

/-- C5 counterexample: the item mapping inside getWikipediaRecommendations
produces an item whose imageUrl is the absent/empty thumbnail source — the
thumbnail object is truthy, so the placeholder fallback is skipped and
imageUrl is empty, violating the claimed invariant. -/
theorem recItemInvariant_c5_counterexample :
    getWikipediaRecommendations "東京" 1 [⟨7, "東京タワー"⟩] (fun _ => some c5BadPage) =
      [some
        { name := "東京タワー"
        , reason := "Wikipediaで「東京」に関連する情報として見つかりました。"
        , features := ["概要...", "信頼性の高い情報源", "幅広いトピックをカバー"]
        , imageUrl := ""
        , officialUrl := "https://ja.wikipedia.org/?curid=7" }] := by decide

/-- C5 (amended): every item the Knowledge Graph client produces satisfies
the invariant — no empty feature strings and a non-empty imageUrl (given
that every cached URL value is non-empty); Wikipedia items always satisfy
the features half, and their imageUrl is non-empty whenever the content has
no thumbnail object (placeholder fallback) or a thumbnail with a non-empty
source — but not when a thumbnail object with an absent/empty source is
present, as the counterexample shows. -/
theorem recItemInvariant_c5_amended :
    (∀ (e : KGEntity) (content : String → Option WikiPage) (cache : UrlCache)
        (item : RecommendationItem) (cache2 : UrlCache), nonEmptyVals cache →
      convertToRecommendationItem e content cache = (Except.ok item, cache2) →
      (∀ f ∈ item.features, f ≠ "") ∧ item.imageUrl ≠ "") ∧
    (∀ (query : String) (page : WikiPage),
      ∀ f ∈ (toWikipediaRecommendationItem query page).features, f ≠ "") ∧
    (∀ (query : String) (page : WikiPage),
      (page.thumbnail = none ∨ ∃ t, page.thumbnail = some t ∧ t.source ≠ "") →
      (toWikipediaRecommendationItem query page).imageUrl ≠ "") := by
  refine ⟨?_, ?_, ?_⟩
  · intro e content cache item cache2 hne hconv
    cases ht : e.atType with
    | none => simp [convertToRecommendationItem, ht] at hconv
    | some types =>
      simp only [convertToRecommendationItem, ht, Prod.mk.injEq, Except.ok.injEq] at hconv
      obtain ⟨hitem, _⟩ := hconv
      subst hitem
      constructor
      · intro f hf
        exact mem_recFeatures_ne_empty types e.url f hf
      · exact getKnowledgeGraphImageUrl_ne_empty e content cache hne
  · intro query page f hf
    simp only [toWikipediaRecommendationItem, List.mem_cons, List.not_mem_nil,
      or_false] at hf
    rcases hf with hf | hf | hf
    · subst hf
      by_cases hx : page.extract = ""
      · simp [hx]
      · simp only [hx, ne_eq, not_false_eq_true, if_true]
        exact string_append_ne_empty_right _ _ (by decide)
    · subst hf; decide
    · subst hf; decide
  · intro query page h
    rcases h with h | ⟨t, ht, hs⟩
    · simp [toWikipediaRecommendationItem, h]
    · simpa [toWikipediaRecommendationItem, ht] using hs

/-- A plain entity with two type tags, no url and no image, resolving to
the placeholder. -/
def c5GoodEntity : KGEntity :=
  ⟨"kg:/g/11", "ミク", some ["kg:Person", "Thing"], "説明", none, none, ""⟩

/-- The item convertToRecommendationItem produces for c5GoodEntity. -/
def c5GoodItem : RecommendationItem :=
  { name := "ミク"
  , reason := "説明"
  , features := ["Person", "Thing"]
  , imageUrl := placeholderUrl
  , officialUrl := "#" }

/-- A page with no thumbnail object at all (placeholder fallback). -/
def c5GoodPage : WikiPage := ⟨"皇居", "", none, 9⟩

/-- C5 witness: the amended statement evaluated on a concrete Knowledge
Graph conversion and a concrete Wikipedia page. -/
theorem recItemInvariant_c5_witness :
    ((∀ f ∈ c5GoodItem.features, f ≠ "") ∧ c5GoodItem.imageUrl ≠ "") ∧
    (∀ f ∈ (toWikipediaRecommendationItem "皇居" c5GoodPage).features, f ≠ "") ∧
    (toWikipediaRecommendationItem "皇居" c5GoodPage).imageUrl ≠ "" :=
  ⟨recItemInvariant_c5_amended.1 c5GoodEntity (fun _ => none) [] c5GoodItem []
      (by simp [nonEmptyVals]) rfl,
   recItemInvariant_c5_amended.2.1 "皇居" c5GoodPage,
   recItemInvariant_c5_amended.2.2 "皇居" c5GoodPage (Or.inl rfl)⟩

/-! ## Claim C8 -/

theorem searchWikipediaFetchPath_network (cacheKey url : String) (now : Int)
    (cache : WikiSearchCache) (fetch : String → WikiSearchResponse) :
    (searchWikipediaFetchPath cacheKey url now cache fetch).2.2 = true := by
  by_cases h : (fetch url).ok = true
  · simp [searchWikipediaFetchPath, h]
  · simp only [Bool.not_eq_true] at h
    simp [searchWikipediaFetchPath, h]

/-- C8 (confirmed): after a successful first call (cache miss, response ok)
at time t0 storing (data, t0), a second call at time t1 with t1 - t0 < 24h
returns the cached data with the cache untouched and no network call; a
call at or after the 24h boundary behaves exactly like a call on the cache
with the entry deleted — a true miss (the erased cache has no entry for the
key) — and does perform a network fetch. -/
theorem searchWikipedia_ttl_c8 (q : String) (limit : Nat) (t0 t1 : Int)
    (cache : WikiSearchCache) (fetch0 fetch1 : String → WikiSearchResponse)
    (hnd : (cache.map Prod.fst).Nodup)
    (hmiss : lookupKV cache (wikiSearchCacheKey q limit) = none)
    (hok : (fetch0 (wikiSearchUrl q limit)).ok = true)
    (res0 : List WikiSearchResult) (cache1 : WikiSearchCache) (nw0 : Bool)
    (hr0 : searchWikipedia q limit t0 cache fetch0 = (res0, cache1, nw0)) :
    (t1 - t0 < CACHE_TTL →
      searchWikipedia q limit t1 cache1 fetch1 = (res0, cache1, false)) ∧
    (¬ (t1 - t0 < CACHE_TTL) →
      searchWikipedia q limit t1 cache1 fetch1 =
        searchWikipedia q limit t1 (eraseKV cache1 (wikiSearchCacheKey q limit)) fetch1 ∧
      lookupKV (eraseKV cache1 (wikiSearchCacheKey q limit))
        (wikiSearchCacheKey q limit) = none ∧
      (searchWikipedia q limit t1 cache1 fetch1).2.2 = true) := by
  have h0 : searchWikipedia q limit t0 cache fetch0 =
      ((fetch0 (wikiSearchUrl q limit)).results.getD [],
       setKV cache (wikiSearchCacheKey q limit)
         ⟨(fetch0 (wikiSearchUrl q limit)).results.getD [], t0⟩, true) := by
    simp [searchWikipedia, hmiss, searchWikipediaFetchPath, hok]
  rw [h0] at hr0
  have hres : res0 = (fetch0 (wikiSearchUrl q limit)).results.getD [] := by
    have := congrArg (fun x => x.1) hr0
    simpa using this.symm
  have hc1 : cache1 = setKV cache (wikiSearchCacheKey q limit)
      ⟨(fetch0 (wikiSearchUrl q limit)).results.getD [], t0⟩ := by
    have := congrArg (fun x => x.2.1) hr0
    simpa using this.symm
  have hlook : lookupKV cache1 (wikiSearchCacheKey q limit) =
      some ⟨res0, t0⟩ := by
    rw [hc1, hres]
    exact lookupKV_setKV_self _ _ _
  have hnd1 : (cache1.map Prod.fst).Nodup := by
    rw [hc1]
    exact nodup_keys_setKV _ _ _ hnd
  constructor
  · intro hlt
    simp [searchWikipedia, hlook, hlt]
  · intro hge
    have herased : lookupKV (eraseKV cache1 (wikiSearchCacheKey q limit))
        (wikiSearchCacheKey q limit) = none :=
      lookupKV_eraseKV_self cache1 (wikiSearchCacheKey q limit) hnd1
    refine ⟨?_, herased, ?_⟩
    · simp [searchWikipedia, hlook, hge, herased]
    · simp only [searchWikipedia, hlook, hge, if_false]
      exact searchWikipediaFetchPath_network _ _ _ _ _

/-- C8 witness: a concrete first call at t0 = 0 (miss, ok response), then a
second call at t1 = 1000 ms hits the cache with no network call. -/
theorem searchWikipedia_ttl_c8_witness :
    searchWikipedia "東京" 5 1000
        [("search_東京_5", ⟨[⟨10, "東京"⟩], 0⟩)] (fun _ => ⟨false, none⟩) =
      ([⟨10, "東京"⟩], [("search_東京_5", ⟨[⟨10, "東京"⟩], 0⟩)], false) :=
  (searchWikipedia_ttl_c8 "東京" 5 0 1000 [] (fun _ => ⟨true, some [⟨10, "東京"⟩]⟩)
      (fun _ => ⟨false, none⟩) (by decide) rfl rfl
      [⟨10, "東京"⟩] [("search_東京_5", ⟨[⟨10, "東京"⟩], 0⟩)] true rfl).1 (by decide)

/-! ## Claim C9 -/

theorem filter_isSome_map_eq_filterMap {α β : Type} (l : List α) (f : α → Option β) :
    (l.map f).filter (fun x => x.isSome) = (l.filterMap f).map some := by
  induction l with
  | nil => simp
  | cons a rest ih =>
    cases hf : f a with
    | none => simp [hf, ih]
    | some b => simp [hf, ih]

/-- C9 (confirmed): getWikipediaRecommendations returns [] when the search
yielded nothing; otherwise the returned list is exactly one item per
top-limit search result whose content fetch succeeded (in order), so it
contains no null entries and has length at most limit. -/
theorem wikipediaRecommendations_c9 (query : String) (limit : Nat)
    (searchResults : List WikiSearchResult) (content : Nat → Option WikiPage) :
    (searchResults = [] →
      getWikipediaRecommendations query limit searchResults content = []) ∧
    (∀ x ∈ getWikipediaRecommendations query limit searchResults content, x ≠ none) ∧
    (getWikipediaRecommendations query limit searchResults content).length ≤ limit ∧
    getWikipediaRecommendations query limit searchResults content =
      ((searchResults.take limit).filterMap
        (fun r => (content r.pageid).map (toWikipediaRecommendationItem query))).map
        some := by
  have hmain : getWikipediaRecommendations query limit searchResults content =
      ((searchResults.take limit).filterMap
        (fun r => (content r.pageid).map (toWikipediaRecommendationItem query))).map
        some := by
    by_cases hemp : searchResults.isEmpty
    · rw [List.isEmpty_iff] at hemp
      subst hemp
      simp [getWikipediaRecommendations]
    · simp only [getWikipediaRecommendations, hemp, if_false]
      have heq : (fun r : WikiSearchResult =>
          match content r.pageid with
          | none => (none : Option RecommendationItem)
          | some page => some (toWikipediaRecommendationItem query page)) =
          fun r => (content r.pageid).map (toWikipediaRecommendationItem query) := by
        funext r
        cases content r.pageid <;> simp
      rw [heq]
      exact filter_isSome_map_eq_filterMap _ _
  refine ⟨?_, ?_, ?_, hmain⟩
  · intro h
    subst h
    simp [getWikipediaRecommendations]
  · intro x hx
    rw [hmain] at hx
    simp only [List.mem_map] at hx
    obtain ⟨y, _, hy⟩ := hx
    rw [← hy]
    simp
  · rw [hmain, List.length_map]
    exact le_trans (List.length_filterMap_le _ _) (List.length_take_le _ _)

/-- C9 witness: the empty-search case and a concrete two-result call with
limit 1 whose returned list has length at most 1. -/
theorem wikipediaRecommendations_c9_witness :
    getWikipediaRecommendations "初音ミク" 3 [] (fun _ => none) = [] ∧
    (getWikipediaRecommendations "初音ミク" 1 [⟨1, "a"⟩, ⟨2, "b"⟩]
      (fun n => if n = 1 then some ⟨"初音ミク", "歌声", none, 1⟩ else none)).length ≤ 1 :=
  ⟨(wikipediaRecommendations_c9 "初音ミク" 3 [] (fun _ => none)).1 rfl,
   (wikipediaRecommendations_c9 "初音ミク" 1 [⟨1, "a"⟩, ⟨2, "b"⟩]
      (fun n => if n = 1 then some ⟨"初音ミク", "歌声", none, 1⟩ else none)).2.2.1⟩
